import Mathlib

/-!
Shallow embedding of `homework.py` (a single-resource status poller) and
verification of its specification claims.
-/

/-- A generic JSON-like Python value, as returned by `response.json()`. -/
inductive JVal where
  | null : JVal
  | str : String → JVal
  | num : Int → JVal
  | list : List JVal → JVal
  | dict : List (String × JVal) → JVal
deriving Repr

mutual

/-- Decidable equality on JSON values (Python `==` on the modelled values). -/
def JVal.decEq : (a b : JVal) → Decidable (a = b)
  | .null, .null => isTrue rfl
  | .null, .str _ => isFalse (fun h => JVal.noConfusion h)
  | .null, .num _ => isFalse (fun h => JVal.noConfusion h)
  | .null, .list _ => isFalse (fun h => JVal.noConfusion h)
  | .null, .dict _ => isFalse (fun h => JVal.noConfusion h)
  | .str _, .null => isFalse (fun h => JVal.noConfusion h)
  | .str a, .str b =>
    match String.decEq a b with
    | isTrue h => isTrue (by rw [h])
    | isFalse h => isFalse (fun hh => h (JVal.str.inj hh))
  | .str _, .num _ => isFalse (fun h => JVal.noConfusion h)
  | .str _, .list _ => isFalse (fun h => JVal.noConfusion h)
  | .str _, .dict _ => isFalse (fun h => JVal.noConfusion h)
  | .num _, .null => isFalse (fun h => JVal.noConfusion h)
  | .num _, .str _ => isFalse (fun h => JVal.noConfusion h)
  | .num a, .num b =>
    match Int.decEq a b with
    | isTrue h => isTrue (by rw [h])
    | isFalse h => isFalse (fun hh => h (JVal.num.inj hh))
  | .num _, .list _ => isFalse (fun h => JVal.noConfusion h)
  | .num _, .dict _ => isFalse (fun h => JVal.noConfusion h)
  | .list _, .null => isFalse (fun h => JVal.noConfusion h)
  | .list _, .str _ => isFalse (fun h => JVal.noConfusion h)
  | .list _, .num _ => isFalse (fun h => JVal.noConfusion h)
  | .list xs, .list ys =>
    match JVal.decEqList xs ys with
    | isTrue h => isTrue (by rw [h])
    | isFalse h => isFalse (fun hh => h (JVal.list.inj hh))
  | .list _, .dict _ => isFalse (fun h => JVal.noConfusion h)
  | .dict _, .null => isFalse (fun h => JVal.noConfusion h)
  | .dict _, .str _ => isFalse (fun h => JVal.noConfusion h)
  | .dict _, .num _ => isFalse (fun h => JVal.noConfusion h)
  | .dict _, .list _ => isFalse (fun h => JVal.noConfusion h)
  | .dict xs, .dict ys =>
    match JVal.decEqDict xs ys with
    | isTrue h => isTrue (by rw [h])
    | isFalse h => isFalse (fun hh => h (JVal.dict.inj hh))

/-- Decidable equality on lists of JSON values. -/
def JVal.decEqList : (a b : List JVal) → Decidable (a = b)
  | [], [] => isTrue rfl
  | [], _ :: _ => isFalse (fun h => List.noConfusion h)
  | _ :: _, [] => isFalse (fun h => List.noConfusion h)
  | x :: xs, y :: ys =>
    match JVal.decEq x y, JVal.decEqList xs ys with
    | isTrue h1, isTrue h2 => isTrue (by rw [h1, h2])
    | isFalse h1, _ => isFalse (fun hh => h1 (List.cons.inj hh).1)
    | _, isFalse h2 => isFalse (fun hh => h2 (List.cons.inj hh).2)

/-- Decidable equality on string-keyed association lists of JSON values. -/
def JVal.decEqDict : (a b : List (String × JVal)) → Decidable (a = b)
  | [], [] => isTrue rfl
  | [], _ :: _ => isFalse (fun h => List.noConfusion h)
  | _ :: _, [] => isFalse (fun h => List.noConfusion h)
  | (k1, v1) :: xs, (k2, v2) :: ys =>
    match String.decEq k1 k2, JVal.decEq v1 v2, JVal.decEqDict xs ys with
    | isTrue h1, isTrue h2, isTrue h3 => isTrue (by rw [h1, h2, h3])
    | isFalse h1, _, _ =>
      isFalse (fun hh => h1 (congrArg Prod.fst (List.cons.inj hh).1))
    | _, isFalse h2, _ =>
      isFalse (fun hh => h2 (congrArg Prod.snd (List.cons.inj hh).1))
    | _, _, isFalse h3 => isFalse (fun hh => h3 (List.cons.inj hh).2)

end

instance : DecidableEq JVal := JVal.decEq

/-- Python exception classes raised in `homework.py`, with their message. -/
inductive PyError where
  | typeError : String → PyError
  | keyError : String → PyError
  | attributeError : String → PyError
  | notForSending : String → PyError
  | wrongAPIResponseCode : String → PyError
  | connectionServer : String → PyError
  | requestException : String → PyError
  | telegramError : String → PyError
deriving DecidableEq, Repr

/-- Lookup in a Python dict modelled as an association list (first match;
the modelled dicts have unique keys). -/
def dictGet (kvs : List (String × JVal)) (k : String) : Option JVal :=
  match kvs with
  | [] => none
  | (k1, v1) :: rest => if k1 = k then some v1 else dictGet rest k

/-- Python membership test `k in d` for a dict payload. -/
def dictHasKey (kvs : List (String × JVal)) (k : String) : Bool :=
  (dictGet kvs k).isSome

/-- Python `isinstance(v, dict)`. -/
def JVal.isDict : JVal → Bool
  | .dict _ => true
  | _ => false

/-- Whether a value is a mapping that carries the key `k` (false for any
non-dict value, which has no fields at all). -/
def JVal.hasKey : JVal → String → Bool
  | .dict kvs, k => dictHasKey kvs k
  | _, _ => false

/-- Python membership test `k in v` on an arbitrary value: key test for
dicts, element test for lists, substring test for strings, `TypeError`
otherwise (non-iterable receiver). -/
def pyContains (v : JVal) (k : String) : Except PyError Bool :=
  match v with
  | .dict kvs => .ok (dictHasKey kvs k)
  | .list xs => .ok (xs.contains (.str k))
  | .str s => .ok (decide ((s.splitOn k).length > 1))
  | _ => .error (.typeError "argument is not iterable")

/-- Python `v.get(k)`: `none` models the `None` returned for a missing key;
a non-dict receiver raises `AttributeError`. -/
def pyGet (v : JVal) (k : String) : Except PyError (Option JVal) :=
  match v with
  | .dict kvs => .ok (dictGet kvs k)
  | _ => .error (.attributeError "object has no attribute get")

/-- Python subscript `v[k]` with a string key: `KeyError` on a dict missing
the key, `TypeError` on any non-dict receiver. -/
def pySubscript (v : JVal) (k : String) : Except PyError JVal :=
  match v with
  | .dict kvs =>
    match dictGet kvs k with
    | some x => .ok x
    | none => .error (.keyError k)
  | _ => .error (.typeError "object is not subscriptable with a str key")

/-- Python `str()` of a modelled value. Atoms are rendered exactly (all the
claims rely on); container rendering is abbreviated. -/
def pyStr : JVal → String
  | .null => "None"
  | .str s => s
  | .num n => toString n
  | .list _ => "[...]"
  | .dict _ => "\x7b...\x7d"

/-- Rendering of a `v.get(k)` result inside an f-string (`None` when the
key was missing). -/
def pyStrOpt : Option JVal → String
  | none => "None"
  | some v => pyStr v

/-- The fixed status→verdict table `HOMEWORK_VERDICTS` (homework.py:24–28). -/
def HOMEWORK_VERDICTS : List (String × String) :=
  [("approved", "Работа проверена: ревьюеру всё понравилось. Ура!"),
   ("reviewing", "Работа взята на проверку ревьюером."),
   ("rejected", "Работа проверена: у ревьюера есть замечания.")]

/-- Python `x in HOMEWORK_VERDICTS` where `x` is the (possibly `None`)
value read for `status`: string values are compared against the keys, other
hashable atoms are never keys, an unhashable container raises `TypeError`. -/
def verdictsContains : Option JVal → Except PyError Bool
  | some (.str s) => .ok (HOMEWORK_VERDICTS.any (fun p => p.1 = s))
  | some (.list _) => .error (.typeError "unhashable type in dict lookup")
  | some (.dict _) => .error (.typeError "unhashable type in dict lookup")
  | _ => .ok false

/-- Python `HOMEWORK_VERDICTS.get(x)` for the same `x`. -/
def verdictsGet : Option JVal → Option String
  | some (.str s) =>
    match HOMEWORK_VERDICTS.find? (fun p => p.1 = s) with
    | some p => some p.2
    | none => none
  | _ => none

/-- Python truthiness of an optional string (used for `not verdict` and for
environment variables: `None` and the empty string are falsy). -/
def strOptTruthy : Option String → Bool
  | none => false
  | some s => s ≠ ""

/-- Translation of `check_response` (homework.py:72–87): validate the API
answer and return the value under the homeworks key. -/
def check_response (response : JVal) : Except PyError (List JVal) :=
  match response with
  | .dict kvs =>
    let homeworks := dictGet kvs "homeworks"
    match homeworks with
    | some (.list hws) =>
      if ¬ dictHasKey kvs "homeworks" then
        .error (.notForSending "Ключ homeworks отсутствует в словаре")
      else if ¬ dictHasKey kvs "current_date" then
        .error (.notForSending "Ключ current_date отсутствует в словаре")
      else
        .ok hws
    | _ =>
      .error (.notForSending
        ("В ответе от API под ключом \"homeworks\" пришел не список. homeworks = "
          ++ pyStrOpt homeworks ++ "."))
  | _ => .error (.typeError "response не словарь")

/-- Translation of `parse_status` (homework.py:90–103): render the status
message of one homework entry. -/
def parse_status (homework : JVal) : Except PyError String :=
  match pyContains homework "homework_name" with
  | .error e => .error e
  | .ok hasName =>
    if ¬ hasName then
      .error (.keyError "Ключ homework_name отсутствует в словаре")
    else
      match pyGet homework "homework_name" with
      | .error e => .error e
      | .ok homework_name =>
        match pyGet homework "status" with
        | .error e => .error e
        | .ok homework_status =>
          match verdictsContains homework_status with
          | .error e => .error e
          | .ok isKnown =>
            if ¬ isKnown then
              .error (.notForSending
                ("Отсутствует статус " ++ pyStrOpt homework_name
                  ++ " в словаре HOMEWORK_VERDICTS."))
            else
              let verdict := verdictsGet homework_status
              if ¬ strOptTruthy verdict then
                .error (.notForSending "Статус домашней работы неизвестен")
              else
                .ok ("Изменился статус проверки работы \"" ++ pyStrOpt homework_name
                  ++ "\". " ++ verdict.getD "")

/-- Translation of `check_tokens` (homework.py:106–108), parametrised by the
three environment variables (`os.getenv` yields `none` when unset). -/
def check_tokens (practicum_token telegram_token telegram_chat_id : Option String) : Bool :=
  strOptTruthy practicum_token && strOptTruthy telegram_token
    && strOptTruthy telegram_chat_id

/-- Severity levels of the logging module as used by the program. -/
inductive LogLevel where
  | debug | info | logError | critical
deriving DecidableEq, Repr

/-- What the process does after the startup token check. -/
inductive StartupOutcome where
  | exitBeforeLoop : Nat → String → StartupOutcome
  | loopEntered : StartupOutcome
deriving DecidableEq, Repr

/-- Translation of the startup part of `main` (homework.py:113–117): the
token check runs once, before the loop; `sys.exit` called with a string
message prints it and exits with status 1. -/
def mainStartup (practicum_token telegram_token telegram_chat_id : Option String) :
    List (LogLevel × String) × StartupOutcome :=
  if ¬ check_tokens practicum_token telegram_token telegram_chat_id then
    ([(.critical, "Отсутствуют токены")], .exitBeforeLoop 1 "Отсутствуют токены")
  else
    ([], .loopEntered)

/-- The report dict with its two fields name and message, compared by value
across iterations. -/
structure Report where
  name : JVal
  message : String
deriving DecidableEq, Repr

/-- The mutable state of the loop in `main`. -/
structure BotState where
  current_timestamp : JVal
  current_report : Report
  prev_report : Report
deriving DecidableEq, Repr

/-- The initial report, with empty name and empty message (homework.py:119). -/
def initReport : Report := { name := .str "", message := "" }

/-- The loop state right before the first iteration (homework.py:118–120). -/
def initState (ts : Int) : BotState :=
  { current_timestamp := .num ts
    current_report := initReport
    prev_report := initReport }

/-- Outcome of one HTTP request made by the fetch collaborator. -/
inductive HttpOutcome where
  | success : Nat → JVal → HttpOutcome
  | failure : String → HttpOutcome
deriving Repr

/-- Translation of `get_api_answer` (homework.py:42–69): a non-200 status
raises `WrongAPIResponseCodeError`; a network-level failure from `requests`
propagates as-is (the `except ConnectionServerError` clause never matches
what `requests.get` raises). -/
def get_api_answer (o : HttpOutcome) : Except PyError JVal :=
  match o with
  | .success status_code body =>
    if status_code ≠ 200 then
      .error (.wrongAPIResponseCode
        ("Ответ сервера не является успешным: " ++ toString status_code))
    else
      .ok body
  | .failure e => .error (.requestException e)

/-- Translation of `send_message` (homework.py:31–39): invoke the Telegram
transport once; a transport failure propagates (the
`except NotForSendingError` clause never matches what the transport
raises). -/
def send_message (sendOk : Bool) (message : String) : Except PyError String :=
  if sendOk then .ok message else .error (.telegramError "Telegram send failed")

/-- Message text carried by an exception, as interpolated by
the f-string interpolating the caught error into the text Сбой в работе программы. -/
def PyError.msg : PyError → String
  | .typeError m => m
  | .keyError m => m
  | .attributeError m => m
  | .notForSending m => m
  | .wrongAPIResponseCode m => m
  | .connectionServer m => m
  | .requestException m => m
  | .telegramError m => m

/-- Translation of the exception handlers of `main` (homework.py:138–147):
`NotForSendingError`, `TypeError` and `KeyError` are only logged; every
other exception is logged and its text is also written into the message
field of current_report. -/
def handleCycleError (e : PyError) (st : BotState) : BotState :=
  match e with
  | .notForSending _ => st
  | .typeError _ => st
  | .keyError _ => st
  | _ =>
    { st with current_report :=
        { st.current_report with
            message := "Сбой в работе программы: " ++ e.msg } }

/-- Translation of lines 126–132 of `main`: build the notification message
and update `current_report`; a failure inside `parse_status` propagates
before any report mutation. -/
def buildReport (new_homeworks : List JVal) (st : BotState) :
    Except PyError (String × BotState) :=
  match new_homeworks with
  | [] =>
    let message := "Нет домашней работы на проверке"
    .ok (message,
      { st with current_report := { st.current_report with message := message } })
  | hw :: _ =>
    match parse_status hw with
    | .error e => .error e
    | .ok message =>
      match pySubscript hw "homework_name" with
      | .error e => .error e
      | .ok nameVal =>
        .ok (message,
          { st with current_report := { name := nameVal, message := message } })

/-- One iteration of the `while True` body of `main` (homework.py:121–149),
given the fetch result and whether the Telegram transport succeeds. Returns
the state after the iteration, the messages passed to the send collaborator
(in invocation order), and the exception caught by the handlers, if any.
Note line 124: the assignment of current_timestamp from the current_date
field of the response runs before check_response. -/
def mainIter (fetchResult : Except PyError JVal) (sendOk : Bool)
    (st : BotState) : BotState × List String × Option PyError :=
  match fetchResult with
  | .error e => (handleCycleError e st, [], some e)
  | .ok response =>
    match pySubscript response "current_date" with
    | .error e => (handleCycleError e st, [], some e)
    | .ok cd =>
      let st1 := { st with current_timestamp := cd }
      match check_response response with
      | .error e => (handleCycleError e st1, [], some e)
      | .ok new_homeworks =>
        match buildReport new_homeworks st1 with
        | .error e => (handleCycleError e st1, [], some e)
        | .ok (message, st2) =>
          if st2.current_report = st2.prev_report then
            (st2, [], none)
          else
            match send_message sendOk message with
            | .ok _ =>
              ({ st2 with prev_report := st2.current_report }, [message], none)
            | .error e => (handleCycleError e st2, [message], some e)

/-- The fixed polling interval `RETRY_TIME` (homework.py:20). -/
def RETRY_TIME : Nat := 600

/-- Observable record of one scheduler-loop iteration. -/
structure CycleTrace where
  sends : List String
  caught : Option PyError
  sleptFor : Nat
deriving Repr

/-- The scheduler loop of `main`: it processes every scripted tick — the
`except` clauses catch every exception raised by the body — and the
`finally` clause sleeps `RETRY_TIME` at the end of each iteration. -/
def runLoop (st : BotState) :
    List (Except PyError JVal × Bool) → BotState × List CycleTrace
  | [] => (st, [])
  | (fr, sOk) :: rest =>
    let out := mainIter fr sOk st
    let next := runLoop out.1 rest
    (next.1, { sends := out.2.1, caught := out.2.2, sleptFor := RETRY_TIME } :: next.2)

/-- Whether a modelled computation raised an exception. -/
def isError {α : Type} : Except PyError α → Bool
  | .ok _ => false
  | .error _ => true

/-- Whether a value read for `status` is one of the keys of
`HOMEWORK_VERDICTS`. -/
def knownStatus : Option JVal → Bool
  | some (.str s) => HOMEWORK_VERDICTS.any (fun p => p.1 = s)
  | _ => false

/-- The raw response of spec Scenario A (code field names). -/
def respA : JVal := .dict [("homeworks", .list []), ("current_date", .num 1000)]

/-- The entry of spec Scenario B (code field names). -/
def entryB : JVal := .dict [("homework_name", .str "hw1"), ("status", .str "approved")]

/-- The raw response of spec Scenario B. -/
def respB : JVal := .dict [("homeworks", .list [entryB]), ("current_date", .num 1010)]

/-- The entry of spec Scenario D: no status field. -/
def entryD : JVal := .dict [("homework_name", .str "hw2")]

/-- The raw response of spec Scenario D. -/
def respD : JVal := .dict [("homeworks", .list [entryD]), ("current_date", .num 1020)]

/-- A structurally invalid response that nevertheless carries a
current_date: the homeworks field holds a string instead of a list. -/
def respBadHomeworks : JVal :=
  .dict [("current_date", .num 1000), ("homeworks", .str "oops")]

/-- A scripted run of the scheduler: a normal tick, a network failure and a
tick with a failing Telegram transport. -/
def demoInputs : List (Except PyError JVal × Bool) :=
  [(.ok respA, true), (.error (.requestException "boom"), true), (.ok respD, false)]

/-! ## Helper lemmas -/

/-- The exception handlers never touch `prev_report`. -/
theorem handleCycleError_prev_report (e : PyError) (st : BotState) :
    (handleCycleError e st).prev_report = st.prev_report := by
  cases e <;> rfl

/-- The exception handlers never touch `current_timestamp`. -/
theorem handleCycleError_current_timestamp (e : PyError) (st : BotState) :
    (handleCycleError e st).current_timestamp = st.current_timestamp := by
  cases e <;> rfl

/-- An absent key yields no value. -/
theorem dictGet_eq_none_of_hasKey_false (kvs : List (String × JVal))
    (k : String) (h : dictHasKey kvs k = false) : dictGet kvs k = none := by
  cases hg : dictGet kvs k with
  | none => rfl
  | some v => simp [dictHasKey, hg] at h

/-- The wrong-type diagnostic of `check_response` never coincides with the
missing-key diagnostic, whatever value is interpolated into it. -/
theorem wrongTypeMsg_ne_missingMsg (s : String) :
    ("В ответе от API под ключом \"homeworks\" пришел не список. homeworks = "
      ++ s ++ ".") ≠ "Ключ homeworks отсутствует в словаре" := by
  intro h
  have hl := congrArg String.length h
  have h1 : ("В ответе от API под ключом \"homeworks\" пришел не список. homeworks = "
      : String).length = 69 := by decide
  have h2 : ("Ключ homeworks отсутствует в словаре" : String).length = 36 := by decide
  have h3 : ("." : String).length = 1 := by decide
  rw [String.length_append, String.length_append, h1, h2, h3] at hl
  omega

/-- A successful `buildReport` keeps `prev_report` and `current_timestamp`. -/
theorem buildReport_ok_inv (hws : List JVal) (st : BotState) (m : String)
    (st2 : BotState) (h : buildReport hws st = .ok (m, st2)) :
    st2.prev_report = st.prev_report ∧ st2.current_timestamp = st.current_timestamp := by
  cases hws with
  | nil =>
    simp only [buildReport, Except.ok.injEq, Prod.mk.injEq] at h
    rw [← h.2]
    exact ⟨rfl, rfl⟩
  | cons hw rest =>
    cases hps : parse_status hw with
    | error e => simp [buildReport, hps] at h
    | ok msg =>
      cases hnm : pySubscript hw "homework_name" with
      | error e => simp [buildReport, hps, hnm] at h
      | ok nv =>
        simp only [buildReport, hps, hnm, Except.ok.injEq, Prod.mk.injEq] at h
        rw [← h.2]
        exact ⟨rfl, rfl⟩

/-! ## Claim theorems -/

/-- C10: for every dict input lacking the homeworks key, `check_response`
raises the wrong-type `NotForSendingError` produced by the `isinstance`
check on the `None` obtained via `.get` (interpolating `homeworks = None`),
and the branch raising the dedicated missing-homeworks diagnostic is
unreachable for every input whatsoever, so a missing homeworks field is
never distinguishable from a wrong-typed one. -/
theorem c10_missing_key_hits_isinstance_check :
    (∀ kvs : List (String × JVal), dictHasKey kvs "homeworks" = false →
      check_response (.dict kvs) =
        .error (.notForSending
          ("В ответе от API под ключом \"homeworks\" пришел не список. homeworks = None."))) ∧
    (∀ response : JVal,
      check_response response ≠
        .error (.notForSending "Ключ homeworks отсутствует в словаре")) := by
  constructor
  · intro kvs h
    have hg : dictGet kvs "homeworks" = none := dictGet_eq_none_of_hasKey_false kvs _ h
    simp [check_response, hg, pyStrOpt]
  · intro response
    cases response with
    | null => simp [check_response]
    | str s => simp [check_response]
    | num n => simp [check_response]
    | list xs => simp [check_response]
    | dict kvs =>
      cases hg : dictGet kvs "homeworks" with
      | none =>
        simp only [check_response, hg]
        intro h
        exact wrongTypeMsg_ne_missingMsg (pyStrOpt none)
          (PyError.notForSending.inj (Except.error.inj h))
      | some v =>
        cases v with
        | list hws =>
          have hk : dictHasKey kvs "homeworks" = true := by simp [dictHasKey, hg]
          simp only [check_response, hg, hk]
          cases hcd : dictHasKey kvs "current_date" <;> simp [hcd]
        | null =>
          simp only [check_response, hg]
          intro h
          exact wrongTypeMsg_ne_missingMsg (pyStr .null)
            (PyError.notForSending.inj (Except.error.inj h))
        | str s =>
          simp only [check_response, hg]
          intro h
          exact wrongTypeMsg_ne_missingMsg (pyStr (.str s))
            (PyError.notForSending.inj (Except.error.inj h))
        | num n =>
          simp only [check_response, hg]
          intro h
          exact wrongTypeMsg_ne_missingMsg (pyStr (.num n))
            (PyError.notForSending.inj (Except.error.inj h))
        | dict d =>
          simp only [check_response, hg]
          intro h
          exact wrongTypeMsg_ne_missingMsg (pyStr (.dict d))
            (PyError.notForSending.inj (Except.error.inj h))

/-- C10 witness: a concrete dict without the homeworks key produces the
wrong-type diagnostic with `None` interpolated. -/
theorem c10_witness :
    check_response (.dict [("current_date", .num 1)]) =
      .error (.notForSending
        ("В ответе от API под ключом \"homeworks\" пришел не список. homeworks = None.")) :=
  c10_missing_key_hits_isinstance_check.1 [("current_date", .num 1)] (by decide)

/-- C4: every raw response that lacks the homeworks key or lacks the
current_date key is rejected by `check_response`; no validated homeworks
list is produced. -/
theorem c4_missing_field_rejected (response : JVal)
    (h : response.hasKey "homeworks" = false ∨ response.hasKey "current_date" = false) :
    isError (check_response response) = true := by
  cases response with
  | null => simp [check_response, isError]
  | str s => simp [check_response, isError]
  | num n => simp [check_response, isError]
  | list xs => simp [check_response, isError]
  | dict kvs =>
    cases hg : dictGet kvs "homeworks" with
    | none => simp [check_response, hg, isError]
    | some v =>
      cases v with
      | list hws =>
        have hk : dictHasKey kvs "homeworks" = true := by simp [dictHasKey, hg]
        rcases h with h | h
        · rw [JVal.hasKey] at h
          rw [hk] at h
          exact absurd h (by simp)
        · rw [JVal.hasKey] at h
          simp [check_response, hg, hk, h, isError]
      | null => simp [check_response, hg, isError]
      | str s => simp [check_response, hg, isError]
      | num n => simp [check_response, hg, isError]
      | dict d => simp [check_response, hg, isError]

/-- C4 witness: a response with a homeworks list but no current_date key is
rejected. -/
theorem c4_witness :
    isError (check_response (.dict [("homeworks", .list [])])) = true :=
  c4_missing_field_rejected (.dict [("homeworks", .list [])]) (Or.inr (by decide))

/-- C5 counterexample: the claim says translation fails when the identifier
of the entry is empty, but `parse_status` only tests key presence: an entry
with a present-but-empty homework_name and a known status succeeds. -/
theorem c5_counterexample :
    isError (parse_status (.dict [("homework_name", .str ""), ("status", .str "approved")]))
        = false ∧
    parse_status (.dict [("homework_name", .str ""), ("status", .str "approved")]) =
      .ok "Изменился статус проверки работы \"\". Работа проверена: ревьюеру всё понравилось. Ура!" := by
  constructor
  · rfl
  · rfl

/-- C5 (amended): for every mapping entry, `parse_status` fails exactly when
the homework_name key is absent, or the status value is absent or not one of
the three keys of `HOMEWORK_VERDICTS` (an empty-but-present identifier is
accepted); otherwise it returns the rendered message. -/
theorem c5_translate_failure_iff (kvs : List (String × JVal)) :
    isError (parse_status (.dict kvs)) = true ↔
      (dictHasKey kvs "homework_name" = false ∨
        knownStatus (dictGet kvs "status") = false) := by
  cases hname : dictHasKey kvs "homework_name" with
  | false => simp [parse_status, pyContains, hname, isError]
  | true =>
    cases hst : dictGet kvs "status" with
    | none =>
      simp [parse_status, pyContains, pyGet, hname, hst, verdictsContains,
        knownStatus, isError]
    | some v =>
      cases v with
      | null =>
        simp [parse_status, pyContains, pyGet, hname, hst, verdictsContains,
          knownStatus, isError]
      | num n =>
        simp [parse_status, pyContains, pyGet, hname, hst, verdictsContains,
          knownStatus, isError]
      | list xs =>
        simp [parse_status, pyContains, pyGet, hname, hst, verdictsContains,
          knownStatus, isError]
      | dict d =>
        simp [parse_status, pyContains, pyGet, hname, hst, verdictsContains,
          knownStatus, isError]
      | str s =>
        cases hk : HOMEWORK_VERDICTS.any (fun p => p.1 = s) with
        | false =>
          simp [parse_status, pyContains, pyGet, hname, hst, verdictsContains,
            hk, knownStatus, isError]
        | true =>
          have hcases : s = "approved" ∨ s = "reviewing" ∨ s = "rejected" := by
            have := hk
            simp [HOMEWORK_VERDICTS, List.any] at this
            rcases this with h | h | h
            · exact Or.inl h.symm
            · exact Or.inr (Or.inl h.symm)
            · exact Or.inr (Or.inr h.symm)
          rcases hcases with h | h | h <;> subst h <;>
            simp [parse_status, pyContains, pyGet, hname, hst, verdictsContains,
              verdictsGet, strOptTruthy, HOMEWORK_VERDICTS, knownStatus, isError]

/-- C3: whenever the Telegram transport fails, the candidate report is not
adopted: `prev_report` keeps its pre-cycle value after every iteration run
with a failing send collaborator, so a later cycle that rebuilds the same
candidate will compare it against the old `prev_report` and attempt
delivery again. -/
theorem c3_failed_send_keeps_prev_report (fetchResult : Except PyError JVal)
    (st : BotState) :
    (mainIter fetchResult false st).1.prev_report = st.prev_report := by
  cases fetchResult with
  | error e => simp [mainIter, handleCycleError_prev_report]
  | ok response =>
    cases h1 : pySubscript response "current_date" with
    | error e => simp [mainIter, h1, handleCycleError_prev_report]
    | ok cd =>
      cases h2 : check_response response with
      | error e => simp [mainIter, h1, h2, handleCycleError_prev_report]
      | ok hws =>
        cases h3 : buildReport hws { st with current_timestamp := cd } with
        | error e => simp [mainIter, h1, h2, h3, handleCycleError_prev_report]
        | ok p =>
          obtain ⟨m, st2⟩ := p
          have hprev : st2.prev_report = st.prev_report :=
            (buildReport_ok_inv hws _ m st2 h3).1
          simp only [mainIter, h1, h2, h3]
          by_cases hc : st2.current_report = st2.prev_report
          · have hc2 : st2.current_report = st.prev_report := by rw [← hprev]; exact hc
            simp [hc, hc2, hprev]
          · have hc2 : ¬ st2.current_report = st.prev_report := by rw [← hprev]; exact hc
            simp [hc, hc2, send_message, handleCycleError_prev_report, hprev]

/-- C2 counterexample: a structurally invalid response (homeworks holds a
string) whose dict nevertheless carries current_date does mutate the
cursor: the assignment on line 124 runs before `check_response`. -/
theorem c2_counterexample :
    isError (check_response respBadHomeworks) = true ∧
    (initState 5).current_timestamp = .num 5 ∧
    (mainIter (.ok respBadHomeworks) true (initState 5)).1.current_timestamp
      = .num 1000 :=
  ⟨by rfl, by rfl, by rfl⟩

/-- C2 (amended): a cycle that fetches a structurally invalid response
aborts with an exception, sends nothing and leaves `prev_report` unchanged;
the cursor is left unchanged exactly when reading the current_date field by
subscript itself fails (non-dict root or missing current_date key), and is advanced to
that value otherwise, because the assignment precedes validation. -/
theorem c2_invalid_response_state (response : JVal) (st : BotState) (sendOk : Bool)
    (hcr : isError (check_response response) = true) :
    (mainIter (.ok response) sendOk st).1.prev_report = st.prev_report ∧
    (mainIter (.ok response) sendOk st).2.1 = [] ∧
    ((mainIter (.ok response) sendOk st).2.2).isSome = true ∧
    (mainIter (.ok response) sendOk st).1.current_timestamp =
      (match pySubscript response "current_date" with
       | .ok cd => cd
       | .error _ => st.current_timestamp) := by
  obtain ⟨e, he⟩ : ∃ e, check_response response = .error e := by
    cases hc : check_response response with
    | ok l => rw [hc] at hcr; simp [isError] at hcr
    | error e => exact ⟨e, rfl⟩
  cases h1 : pySubscript response "current_date" with
  | error e1 =>
    simp [mainIter, h1, handleCycleError_prev_report,
      handleCycleError_current_timestamp]
  | ok cd =>
    simp [mainIter, h1, he, handleCycleError_prev_report,
      handleCycleError_current_timestamp]

/-- C2 witness: the amended statement at the concrete invalid response. -/
theorem c2_witness :
    (mainIter (.ok respBadHomeworks) true (initState 5)).1.prev_report
        = (initState 5).prev_report ∧
    (mainIter (.ok respBadHomeworks) true (initState 5)).2.1 = [] := by
  have h := c2_invalid_response_state respBadHomeworks (initState 5) true (by rfl)
  exact ⟨h.1, h.2.1⟩

/-- C1 counterexample: on the raw response of Scenario A and the initial
state, the iteration does invoke the send collaborator — with the fixed
message built for an empty homeworks list — although the claim requires
zero sends. -/
theorem c1_counterexample :
    (mainIter (.ok respA) true (initState 900)).2.1
        = ["Нет домашней работы на проверке"] ∧
    (mainIter (.ok respA) true (initState 900)).2.1 ≠ [] :=
  ⟨by rfl, by decide⟩

/-- C1 (amended): for every structurally valid response with an empty
homeworks list, the iteration takes the new cursor from the response and
raises nothing, but it also rewrites the current_report message to the
fixed no-homework text: the send collaborator is not invoked exactly when
the resulting report already equals `prev_report`, and is invoked once with
that text otherwise. -/
theorem c1_empty_homeworks (response cd : JVal) (st : BotState)
    (hcd : pySubscript response "current_date" = .ok cd)
    (hcr : check_response response = .ok []) :
    (mainIter (.ok response) true st).1.current_timestamp = cd ∧
    (mainIter (.ok response) true st).2.2 = none ∧
    (mainIter (.ok response) true st).2.1 =
      (if ({ name := st.current_report.name,
             message := "Нет домашней работы на проверке" } : Report) = st.prev_report
       then [] else ["Нет домашней работы на проверке"]) := by
  have hb : buildReport [] { st with current_timestamp := cd } =
      .ok ("Нет домашней работы на проверке",
        { st with
          current_timestamp := cd
          current_report :=
            { st.current_report with
              message := "Нет домашней работы на проверке" } }) := rfl
  simp only [mainIter, hcd, hcr, hb]
  by_cases hc :
      Report.mk st.current_report.name "Нет домашней работы на проверке" = st.prev_report
  · simp [hc]
  · simp [hc, send_message]

/-- C1 witness: the amended statement at the Scenario A response and the
initial state, where the no-homework report differs from the initial
report, so one send occurs and the cursor becomes 1000. -/
theorem c1_witness :
    (mainIter (.ok respA) true (initState 900)).1.current_timestamp = .num 1000 ∧
    (mainIter (.ok respA) true (initState 900)).2.1
        = ["Нет домашней работы на проверке"] := by
  have h := c1_empty_homeworks respA (.num 1000) (initState 900) (by rfl) (by rfl)
  refine ⟨h.1, ?_⟩
  rw [h.2.2]
  decide

/-- C6: for every structurally valid response whose first entry fails
translation, the cycle surfaces the translation error (no send, report
state untouched) but the cursor has already advanced to the cursor value of
the response, so the next cycle polls from the new position. -/
theorem c6_translation_error_still_advances (response cd hw : JVal)
    (rest : List JVal) (st : BotState) (sendOk : Bool)
    (hcd : pySubscript response "current_date" = .ok cd)
    (hcr : check_response response = .ok (hw :: rest))
    (hps : isError (parse_status hw) = true) :
    (mainIter (.ok response) sendOk st).1.current_timestamp = cd ∧
    ((mainIter (.ok response) sendOk st).2.2).isSome = true ∧
    (mainIter (.ok response) sendOk st).2.1 = [] ∧
    (mainIter (.ok response) sendOk st).1.prev_report = st.prev_report := by
  obtain ⟨e, he⟩ : ∃ e, parse_status hw = .error e := by
    cases hp : parse_status hw with
    | ok m => rw [hp] at hps; simp [isError] at hps
    | error e => exact ⟨e, rfl⟩
  have hb : buildReport (hw :: rest) { st with current_timestamp := cd } = .error e := by
    simp [buildReport, he]
  simp [mainIter, hcd, hcr, hb, handleCycleError_prev_report,
    handleCycleError_current_timestamp]

/-- C6 witness: the Scenario D response (entry without a status) surfaces a
translation error while the cursor advances to 1020. -/
theorem c6_witness :
    (mainIter (.ok respD) true (initState 900)).1.current_timestamp = .num 1020 ∧
    (mainIter (.ok respD) true (initState 900)).2.1 = [] := by
  have h := c6_translation_error_still_advances respD (.num 1020) entryD [] (initState 900)
    true (by rfl) (by rfl) (by rfl)
  exact ⟨h.1, h.2.2.1⟩

/-- C7: running the cycle twice on responses whose newest entry builds the
same report, from a state the first run updates, invokes the send
collaborator exactly once: the first run delivers and adopts the report and
the second run returns the new cursor with no report and no send. -/
theorem c7_second_cycle_noop (r1 r2 cd1 cd2 nm h1 h2 : JVal)
    (t1 t2 : List JVal) (m : String) (st : BotState)
    (hcd1 : pySubscript r1 "current_date" = .ok cd1)
    (hcr1 : check_response r1 = .ok (h1 :: t1))
    (hps1 : parse_status h1 = .ok m)
    (hnm1 : pySubscript h1 "homework_name" = .ok nm)
    (hcd2 : pySubscript r2 "current_date" = .ok cd2)
    (hcr2 : check_response r2 = .ok (h2 :: t2))
    (hps2 : parse_status h2 = .ok m)
    (hnm2 : pySubscript h2 "homework_name" = .ok nm)
    (hnew : Report.mk nm m ≠ st.prev_report) :
    (mainIter (.ok r1) true st).2.1 = [m] ∧
    (mainIter (.ok r2) true (mainIter (.ok r1) true st).1).2.1 = [] ∧
    (mainIter (.ok r2) true (mainIter (.ok r1) true st).1).1.current_timestamp = cd2 ∧
    (mainIter (.ok r2) true (mainIter (.ok r1) true st).1).2.2 = none := by
  have hb1 : buildReport (h1 :: t1) { st with current_timestamp := cd1 } =
      .ok (m, { st with
        current_timestamp := cd1
        current_report := Report.mk nm m }) := by
    simp [buildReport, hps1, hnm1]
  have hout1 : mainIter (.ok r1) true st =
      (BotState.mk cd1 (Report.mk nm m) (Report.mk nm m), [m], none) := by
    simp only [mainIter, hcd1, hcr1, hb1]
    simp [hnew, send_message]
  rw [hout1]
  have hb2 : buildReport (h2 :: t2)
      { BotState.mk cd1 (Report.mk nm m) (Report.mk nm m) with current_timestamp := cd2 } =
      .ok (m, BotState.mk cd2 (Report.mk nm m) (Report.mk nm m)) := by
    simp [buildReport, hps2, hnm2]
  simp only [mainIter, hcd2, hcr2, hb2]
  simp

/-- C7 witness: Scenarios B and C — the same response processed twice from
the initial state sends the rendered message exactly once; the second run
yields cursor 1010, no send, no error. -/
theorem c7_witness :
    (mainIter (.ok respB) true (initState 900)).2.1
        = ["Изменился статус проверки работы \"hw1\". Работа проверена: ревьюеру всё понравилось. Ура!"] ∧
    (mainIter (.ok respB) true (mainIter (.ok respB) true (initState 900)).1).2.1 = [] := by
  have h := c7_second_cycle_noop respB respB (.num 1010) (.num 1010) (.str "hw1")
    entryB entryB [] []
    "Изменился статус проверки работы \"hw1\". Работа проверена: ревьюеру всё понравилось. Ура!"
    (initState 900) (by rfl) (by rfl) (by rfl) (by rfl) (by rfl) (by rfl) (by rfl) (by rfl)
    (by decide)
  exact ⟨h.1, h.2.1⟩

/-- C8: whenever one of the three required settings is absent, the startup
check — which runs once, before the loop is ever entered — logs exactly one
critical-severity message and exits with the non-zero status 1. -/
theorem c8_missing_token_exits (practicum_token telegram_token telegram_chat_id : Option String)
    (h : practicum_token = none ∨ telegram_token = none ∨ telegram_chat_id = none) :
    mainStartup practicum_token telegram_token telegram_chat_id =
      ([(.critical, "Отсутствуют токены")], .exitBeforeLoop 1 "Отсутствуют токены") := by
  have hct : check_tokens practicum_token telegram_token telegram_chat_id = false := by
    rcases h with h | h | h <;> subst h <;> simp [check_tokens, strOptTruthy]
  simp [mainStartup, hct]

/-- C8 witness: with the Practicum token unset the process logs one
critical message and exits with status 1 before the loop. -/
theorem c8_witness :
    mainStartup none (some "bot-token") (some "chat-id") =
      ([(.critical, "Отсутствуют токены")], .exitBeforeLoop 1 "Отсутствуют токены") :=
  c8_missing_token_exits none (some "bot-token") (some "chat-id") (Or.inl rfl)

/-- C9: the scheduler loop never terminates on a cycle outcome: every
scripted tick — success, classified failure or unclassified exception — is
processed (one trace entry per tick, none skipped, the loop reaches the end
of the script) and every iteration ends with the unconditional fixed
`RETRY_TIME` sleep of the `finally` block. -/
theorem c9_loop_processes_every_tick (inputs : List (Except PyError JVal × Bool))
    (st : BotState) :
    (runLoop st inputs).2.length = inputs.length ∧
    ∀ tr ∈ (runLoop st inputs).2, tr.sleptFor = RETRY_TIME := by
  induction inputs generalizing st with
  | nil => simp [runLoop]
  | cons x rest ih =>
    obtain ⟨fr, sOk⟩ := x
    simp only [runLoop, List.length_cons, List.mem_cons]
    constructor
    · simp [(ih _).1]
    · intro tr htr
      rcases htr with h | h
      · rw [h]
      · exact (ih _).2 tr h

/-- C9 witness: a scripted run with a normal tick, a network failure and a
failing send is processed in full, three sleeps included. -/
theorem c9_witness :
    (runLoop (initState 0) demoInputs).2.length = demoInputs.length ∧
    ∀ tr ∈ (runLoop (initState 0) demoInputs).2, tr.sleptFor = RETRY_TIME :=
  c9_loop_processes_every_tick demoInputs (initState 0)

/-- C3 witness: the Scenario B response with a failing transport: the
candidate differs from the initial report, the send fails, and the previous
report keeps its pre-cycle value. -/
theorem c3_witness :
    (mainIter (.ok respB) false (initState 900)).1.prev_report
      = (initState 900).prev_report :=
  c3_failed_send_keeps_prev_report (.ok respB) (initState 900)

/-- C5 witness: the amended characterisation at a concrete entry whose
status is not in the verdict table. -/
theorem c5_witness :
    isError (parse_status (.dict [("homework_name", .str "hw9"), ("status", .str "unknown")]))
      = true :=
  (c5_translate_failure_iff [("homework_name", .str "hw9"), ("status", .str "unknown")]).mpr
    (Or.inr (by decide))
